import Mathlib

/-!
Verification development for the Sneaker-Price-Tracker repository.

Part 1 embeds the extraction engine (the scraper core).  The Python scraper
sources (app/scrapers/base.py, nike.py, adidas.py and the normalizer helpers)
are not present in the repository snapshot — only the README describes them —
so the core is modelled from the specification, as marked on each definition.

Part 2 embeds the Go persistence backend
(backend/internal/repositories/*.go, backend/internal/models/*.go and the
schema backend/internal/migrations/000001_init_schema.up.sql), which is
present in the snapshot.  Strings are manipulated exactly as the Go code
does; the PostgreSQL executor is modelled as accepting an UPDATE statement
precisely when its SET keyword survived the query construction (which, for
the statements these repositories can build, coincides with syntactic
validity).
-/

/-! ## Part 1: the extraction engine, modelled from the spec -/

deriving instance DecidableEq for Except

/-- Modelled from the spec (§7 error taxonomy, code missing from src/):
the three error kinds of the extraction engine.  UnusableContent is the sole
hard failure; MalformedURL and UnparsablePrice are field-local. -/
inductive ScrapeError where
  | unusableContent
  | malformedURL
  | unparsablePrice
deriving DecidableEq, Repr

/-- Modelled from the spec (§3, code missing from src/): one purchasable
color/size combination. -/
structure Variant where
  color : String
  shoeSize : String
  uniqueIdentifier : String
deriving DecidableEq, Repr

/-- Modelled from the spec (§3, code missing from src/): a single
point-in-time price/stock reading.  The decimal price is embedded as a
rational number. -/
structure PriceObservation where
  price : Rat
  isInStock : Bool
deriving DecidableEq, Repr

/-- Modelled from the spec (§4.2, code missing from src/): a raw price
candidate produced by the price extractor before normalization — the
currency-decorated text plus the stock flag read next to it. -/
structure PriceCandidate where
  raw : String
  inStock : Bool
deriving DecidableEq, Repr

/-- Modelled from the spec (§3, code missing from src/): the sole externally
visible artifact of the core, with the degradation flag of §7. -/
structure ScrapeResult where
  variants : List Variant
  priceHistory : List PriceObservation
  images : List String
  degraded : Bool
deriving DecidableEq, Repr

/-- Whether the first list starts with the second one (character lists). -/
def listStartsWith : List Char → List Char → Bool
  | _, [] => true
  | [], _ :: _ => false
  | a :: as, b :: bs => a == b && listStartsWith as bs

/-- Whether the second list occurs as a contiguous sublist of the first. -/
def listHasSub : List Char → List Char → Bool
  | [], needle => needle.isEmpty
  | a :: rest, needle => listStartsWith (a :: rest) needle || listHasSub rest needle

/-- Modelled from the spec (§4.1, code missing from src/): a candidate URL
already carries a scheme when the scheme separator occurs in it. -/
def hasScheme (s : String) : Bool :=
  listHasSub s.data [':', '/', '/']

/-- Characters of a base origin before its scheme separator. -/
def takeBeforeSchemeSep : List Char → List Char
  | [] => []
  | c :: rest =>
    if listStartsWith (c :: rest) [':', '/', '/'] then []
    else c :: takeBeforeSchemeSep rest

/-- Modelled from the spec (§4.1, code missing from src/): the scheme of a
base origin such as "https" of "https://example.com". -/
def schemeOf (baseOrigin : String) : String :=
  String.mk (takeBeforeSchemeSep baseOrigin.data)

/-- A string that is empty or consists of whitespace only. -/
def allWhitespace (s : String) : Bool :=
  s.data.all Char.isWhitespace

/-- Modelled from the spec (§4.1, code missing from src/): resolution of a
path-relative candidate against the base origin. -/
def resolveAgainst (baseOrigin cand : String) : String :=
  if listStartsWith cand.data ['/'] then baseOrigin ++ cand
  else baseOrigin ++ "/" ++ cand

/-- Modelled from the spec (§4.1, code missing from src/): absolutize a
possibly relative or protocol-relative URL against a base origin.  A
candidate with a scheme is returned unchanged; a protocol-relative candidate
gets the base scheme; a path-relative candidate is resolved against the base
origin; an empty or whitespace-only candidate fails with MalformedURL. -/
def absolutize (cand baseOrigin : String) : Except ScrapeError String :=
  if allWhitespace cand then .error .malformedURL
  else if hasScheme cand then .ok cand
  else if listStartsWith cand.data ['/', '/'] then
    .ok (schemeOf baseOrigin ++ ":" ++ cand)
  else .ok (resolveAgainst baseOrigin cand)

/-- Numeric value of a list of decimal digit characters. -/
def digitsVal (cs : List Char) : Nat :=
  cs.foldl (fun n c => 10 * n + (c.toNat - 48)) 0

/-- Decimal value of the kept characters (digits and dots): the digits before
the first dot are the integer part, the digits after it the fractional part. -/
def decimalOfChars (kept : List Char) : Rat :=
  let intDigits := kept.takeWhile (fun c => c ≠ '.')
  let fracDigits := ((kept.dropWhile (fun c => c ≠ '.')).drop 1).filter Char.isDigit
  (digitsVal intDigits : Rat) + (digitsVal fracDigits : Rat) / 10 ^ fracDigits.length

/-- Modelled from the spec (§4.1, code missing from src/): strip every
character that is neither a digit nor the decimal separator, then parse the
remainder as a decimal; fail with UnparsablePrice when no digits remain. -/
def parsePrice (raw : String) : Except ScrapeError Rat :=
  let kept := raw.data.filter (fun c => c.isDigit || c == '.')
  if kept.any Char.isDigit then .ok (decimalOfChars kept)
  else .error .unparsablePrice

/-- Modelled from the spec (§4.2, code missing from src/): the two-tier
lookup shared by every field extractor — the fallback tier is consulted only
when the preferred structured tier yields zero candidates. -/
def twoTier {α : Type} (tierA tierB : String → List α) (content : String) : List α :=
  match tierA content with
  | [] => tierB content
  | c :: cs => c :: cs

/-- Deduplication of variants by unique identifier, keeping the first
occurrence (spec §3). -/
def dedupVariantsAux (seen : List String) : List Variant → List Variant
  | [] => []
  | v :: vs =>
    if seen.contains v.uniqueIdentifier then dedupVariantsAux seen vs
    else v :: dedupVariantsAux (v.uniqueIdentifier :: seen) vs

/-- Modelled from the spec (§3, code missing from src/): deduplicate the
variant list by unique identifier, keeping first occurrences. -/
def dedupVariants (vs : List Variant) : List Variant :=
  dedupVariantsAux [] vs

/-- Deduplication of image URLs preserving first-seen order (spec §4.5). -/
def dedupStringsAux (seen : List String) : List String → List String
  | [] => []
  | s :: ss =>
    if seen.contains s then dedupStringsAux seen ss
    else s :: dedupStringsAux (s :: seen) ss

/-- Modelled from the spec (§4.5, code missing from src/): deduplicate image
URLs preserving order. -/
def dedupStrings (ss : List String) : List String :=
  dedupStringsAux [] ss

/-- Modelled from the spec (§4.5, code missing from src/): the synthetic
fallback Variant — placeholder color and size, and an identifier derived from
the input URL.  The spec leaves the derivation open; it is modelled as the
URL itself. -/
def fallbackVariant (url : String) : Variant :=
  { color := "unknown", shoeSize := "unknown", uniqueIdentifier := url }

/-- Modelled from the spec (§4.5/§7, code missing from src/): each price
candidate is parsed; a candidate failing with UnparsablePrice yields no
observation and is dropped, extraction continuing with the rest. -/
def pricesFrom (cands : List PriceCandidate) : List PriceObservation :=
  cands.filterMap fun c =>
    match parsePrice c.raw with
    | .ok p => some { price := p, isInStock := c.inStock }
    | .error _ => none

/-- Modelled from the spec (§4.5, code missing from src/): normalize every
image candidate via absolutize, drop candidates failing with MalformedURL,
deduplicate preserving order. -/
def imagesFrom (baseOrigin : String) (cands : List String) : List String :=
  dedupStrings (cands.filterMap fun c =>
    match absolutize c baseOrigin with
    | .ok u => some u
    | .error _ => none)

/-- Modelled from the spec (§4.3, code missing from src/): a brand parser
binds the two tiers of each of the three field extractors. -/
structure BrandParser where
  variantTierA : String → List Variant
  variantTierB : String → List Variant
  priceTierA : String → List PriceCandidate
  priceTierB : String → List PriceCandidate
  imageTierA : String → List String
  imageTierB : String → List String

/-- Modelled from the spec (§7, code missing from src/): raw content is
unusable when it is empty or whitespace-only. -/
def unusableContent (content : String) : Bool :=
  allWhitespace content

/-- The variant slice of the result together with the degradation flag:
two-tier extraction, dedup, then the fallback substitution when empty. -/
def extractVariantList (bp : BrandParser) (content url : String) :
    List Variant × Bool :=
  match dedupVariants (twoTier bp.variantTierA bp.variantTierB content) with
  | [] => ([fallbackVariant url], true)
  | v :: vs => (v :: vs, false)

/-- Modelled from the spec (§6, code missing from src/): the single logical
operation of the core.  Unusable content is the sole hard failure; otherwise
the three field extractions are aggregated into a ScrapeResult, field-local
failures having been absorbed inside pricesFrom and imagesFrom. -/
def extract (bp : BrandParser) (content baseOrigin url : String) :
    Except ScrapeError ScrapeResult :=
  if unusableContent content then .error .unusableContent
  else
    let vb := extractVariantList bp content url
    .ok
      { variants := vb.1
        priceHistory := pricesFrom (twoTier bp.priceTierA bp.priceTierB content)
        images := imagesFrom baseOrigin (twoTier bp.imageTierA bp.imageTierB content)
        degraded := vb.2 }

/-- Whether an extraction outcome is a success. -/
def extractionSucceeds (e : Except ScrapeError ScrapeResult) : Bool :=
  match e with
  | .ok _ => true
  | .error _ => false

/-- The variants of a successful extraction (empty on failure). -/
def extractedVariants (e : Except ScrapeError ScrapeResult) : List Variant :=
  match e with
  | .ok r => r.variants
  | .error _ => []

/-- The degradation flag of a successful extraction (false on failure). -/
def extractedDegraded (e : Except ScrapeError ScrapeResult) : Bool :=
  match e with
  | .ok r => r.degraded
  | .error _ => false

/-! ## Part 2: the Go persistence backend (code under src/backend) -/

/-- A row of the products table (models.Product,
backend/internal/models/product.go). -/
structure ProductRow where
  id : Int
  brandName : String
  shoeName : String
  baseURL : String
  createdAt : Nat
deriving DecidableEq, Repr

/-- A row of the countries table (models.Country). -/
structure CountryRow where
  id : Int
  countryCode : String
  currency : String
deriving DecidableEq, Repr

/-- A row of the product_variants table (models.ProductVariant). -/
structure VariantRow where
  id : Int
  productId : Int
  color : String
  shoeSize : String
  uniqueIdentifier : String
deriving DecidableEq, Repr

/-- A row of the price_history table (models.PriceHistory); the NUMERIC(10,2)
price is embedded as a rational number. -/
structure PriceRow where
  id : Int
  variantId : Int
  countryId : Int
  price : Rat
  isInStock : Bool
  capturedAt : Nat
deriving DecidableEq, Repr

/-- models.CreateProductVariantRequest. -/
structure CreateProductVariantRequest where
  productId : Int
  color : String
  shoeSize : String
deriving DecidableEq, Repr

/-- models.UpdateProductVariantRequest: nil pointers are None. -/
structure UpdateProductVariantRequest where
  color : Option String
  shoeSize : Option String
deriving DecidableEq, Repr

/-- models.CreatePriceHistoryRequest. -/
structure CreatePriceHistoryRequest where
  variantId : Int
  countryId : Int
  price : Rat
  isInStock : Bool
deriving DecidableEq, Repr

/-- models.UpdatePriceHistoryRequest: nil pointers are None. -/
structure UpdatePriceHistoryRequest where
  price : Option Rat
  isInStock : Option Bool
deriving DecidableEq, Repr

/-- models.UpdateProductRequest: nil pointers are None. -/
structure UpdateProductRequest where
  brandName : Option String
  shoeName : Option String
  baseURL : Option String
deriving DecidableEq, Repr

/-- models.UpdateCountryRequest: nil pointers are None. -/
structure UpdateCountryRequest where
  countryCode : Option String
  currency : Option String
deriving DecidableEq, Repr

/-- The identifier composed by ProductVariantRepository.Create and .Update:
fmt.Sprintf with the pattern productID, underscore, color, underscore, size
(product_variant_repository.go lines 22 and 174). -/
def mkUniqueIdentifier (pid : Int) (color shoeSize : String) : String :=
  toString pid ++ "_" ++ color ++ "_" ++ shoeSize

/-- ProductVariantRepository.Create (product_variant_repository.go lines
20-43) against the schema: the INSERT is accepted when no existing row has
the same (product_id, color, shoe_size), per UNIQUE(product_id, color,
shoe_size) of 000001_init_schema.up.sql line 24; the stored
unique_identifier is composed by mkUniqueIdentifier. -/
def variantCreate (variants : List VariantRow) (nextId : Int)
    (req : CreateProductVariantRequest) : Except String VariantRow :=
  if variants.any (fun v =>
      v.productId == req.productId && v.color == req.color &&
      v.shoeSize == req.shoeSize) then
    .error "failed to create product variant: duplicate key value"
  else
    .ok
      { id := nextId
        productId := req.productId
        color := req.color
        shoeSize := req.shoeSize
        uniqueIdentifier := mkUniqueIdentifier req.productId req.color req.shoeSize }

/-- PriceHistoryRepository.Create (price_history_repository.go lines 21-42)
against the schema: the INSERT is accepted when the referenced variant and
country rows exist (the foreign keys of 000001_init_schema.up.sql lines
34-35); the schema places no constraint on the sign of price. -/
def priceHistoryCreate (variants : List VariantRow) (countries : List CountryRow)
    (nextId : Int) (now : Nat) (req : CreatePriceHistoryRequest) :
    Except String PriceRow :=
  if variants.any (fun v => v.id == req.variantId) &&
     countries.any (fun c => c.id == req.countryId) then
    .ok
      { id := nextId
        variantId := req.variantId
        countryId := req.countryId
        price := req.price
        isInStock := req.isInStock
        capturedAt := now }
  else
    .error "failed to create price history: foreign key violation"

/-- PriceHistoryRepository.GetLatestPrice (price_history_repository.go lines
148-174): among the rows matching the variant and country, the one with the
greatest captured_at (ORDER BY captured_at DESC LIMIT 1); the error string of
line 168 when none matches. -/
def getLatestPrice (rows : List PriceRow) (vid cid : Int) :
    Except String PriceRow :=
  match rows.filter (fun r => r.variantId == vid && r.countryId == cid) with
  | [] => .error "price history not found"
  | h :: t => .ok (t.foldl (fun best r =>
      if best.capturedAt < r.capturedAt then r else best) h)

/-- Go's query[:len(query)-2]: drop the last two bytes (all query characters
are ASCII, so the last two characters). -/
def dropLast2 (s : String) : String :=
  String.mk s.data.dropLast.dropLast

/-- Whether a built UPDATE statement still carries its SET keyword.  For the
statements the repositories of this backend can build, PostgreSQL accepts
the statement exactly when this holds — the only malformation the builders
can produce is the truncation of SET by the unconditional two-byte trim. -/
def sqlHasSetClause (q : String) : Bool :=
  listHasSub q.data [' ', 'S', 'E', 'T', ' ']

/-- The UPDATE statement built by ProductRepository.Update
(src/unnamed/part_002 lines 105-132): one clause per non-nil field, then the
unconditional two-byte trim, the WHERE clause and the RETURNING clause. -/
def productUpdateQuery (req : UpdateProductRequest) : String :=
  let q := "UPDATE products SET "
  let p := 1
  let (q, p) := match req.brandName with
    | some _ => (q ++ "brand_name = $" ++ toString p ++ ", ", p + 1)
    | none => (q, p)
  let (q, p) := match req.shoeName with
    | some _ => (q ++ "shoe_name = $" ++ toString p ++ ", ", p + 1)
    | none => (q, p)
  let (q, p) := match req.baseURL with
    | some _ => (q ++ "base_url = $" ++ toString p ++ ", ", p + 1)
    | none => (q, p)
  let q := dropLast2 q ++ " WHERE id = $" ++ toString p
  q ++ " RETURNING id, brand_name, shoe_name, base_url, created_at"

/-- ProductRepository.Update (src/unnamed/part_002 lines 105-150) on the row
it addresses: when the built statement is valid the non-nil fields take the
new values and every other column keeps its stored value; when the SET
keyword was truncated the database rejects the statement and Scan returns
the wrapped error of line 146. -/
def productUpdateRow (row : ProductRow) (req : UpdateProductRequest) :
    Except String ProductRow :=
  if sqlHasSetClause (productUpdateQuery req) then
    .ok
      { row with
        brandName := req.brandName.getD row.brandName
        shoeName := req.shoeName.getD row.shoeName
        baseURL := req.baseURL.getD row.baseURL }
  else .error "failed to update product: syntax error"

/-- The stored row after ProductRepository.Update: unchanged when the
statement was rejected. -/
def productUpdateApply (row : ProductRow) (req : UpdateProductRequest) :
    ProductRow :=
  match productUpdateRow row req with
  | .ok r => r
  | .error _ => row

/-- The UPDATE statement built by CountryRepository.Update
(country_repository.go lines 123-145). -/
def countryUpdateQuery (req : UpdateCountryRequest) : String :=
  let q := "UPDATE countries SET "
  let p := 1
  let (q, p) := match req.countryCode with
    | some _ => (q ++ "country_code = $" ++ toString p ++ ", ", p + 1)
    | none => (q, p)
  let (q, p) := match req.currency with
    | some _ => (q ++ "currency = $" ++ toString p ++ ", ", p + 1)
    | none => (q, p)
  let q := dropLast2 q ++ " WHERE id = $" ++ toString p
  q ++ " RETURNING id, country_code, currency"

/-- CountryRepository.Update (country_repository.go lines 123-161) on the row
it addresses. -/
def countryUpdateRow (row : CountryRow) (req : UpdateCountryRequest) :
    Except String CountryRow :=
  if sqlHasSetClause (countryUpdateQuery req) then
    .ok
      { row with
        countryCode := req.countryCode.getD row.countryCode
        currency := req.currency.getD row.currency }
  else .error "failed to update country: syntax error"

/-- The stored row after CountryRepository.Update. -/
def countryUpdateApply (row : CountryRow) (req : UpdateCountryRequest) :
    CountryRow :=
  match countryUpdateRow row req with
  | .ok r => r
  | .error _ => row

/-- The UPDATE statement built by PriceHistoryRepository.Update
(price_history_repository.go lines 214-236). -/
def priceHistoryUpdateQuery (req : UpdatePriceHistoryRequest) : String :=
  let q := "UPDATE price_history SET "
  let p := 1
  let (q, p) := match req.price with
    | some _ => (q ++ "price = $" ++ toString p ++ ", ", p + 1)
    | none => (q, p)
  let (q, p) := match req.isInStock with
    | some _ => (q ++ "is_in_stock = $" ++ toString p ++ ", ", p + 1)
    | none => (q, p)
  let q := dropLast2 q ++ " WHERE id = $" ++ toString p
  q ++ " RETURNING id, variant_id, country_id, price, is_in_stock, captured_at"

/-- PriceHistoryRepository.Update (price_history_repository.go lines 214-255)
on the row it addresses.  No sign check exists on the new price. -/
def priceHistoryUpdateRow (row : PriceRow) (req : UpdatePriceHistoryRequest) :
    Except String PriceRow :=
  if sqlHasSetClause (priceHistoryUpdateQuery req) then
    .ok
      { row with
        price := req.price.getD row.price
        isInStock := req.isInStock.getD row.isInStock }
  else .error "failed to update price history: syntax error"

/-- The stored row after PriceHistoryRepository.Update. -/
def priceHistoryUpdateApply (row : PriceRow) (req : UpdatePriceHistoryRequest) :
    PriceRow :=
  match priceHistoryUpdateRow row req with
  | .ok r => r
  | .error _ => row

/-- The UPDATE statement built by ProductVariantRepository.Update
(product_variant_repository.go lines 145-184): after the optional color and
shoe_size clauses it always appends the recomputed unique_identifier clause,
so the clause list is never empty. -/
def variantUpdateQuery (req : UpdateProductVariantRequest) : String :=
  let q := "UPDATE product_variants SET "
  let p := 1
  let (q, p) := match req.color with
    | some _ => (q ++ "color = $" ++ toString p ++ ", ", p + 1)
    | none => (q, p)
  let (q, p) := match req.shoeSize with
    | some _ => (q ++ "shoe_size = $" ++ toString p ++ ", ", p + 1)
    | none => (q, p)
  let q := q ++ "unique_identifier = $" ++ toString p ++ ", "
  let p := p + 1
  let q := dropLast2 q ++ " WHERE id = $" ++ toString p
  q ++ " RETURNING id, product_id, color, shoe_size, unique_identifier"

/-- ProductVariantRepository.Update (product_variant_repository.go lines
145-202) on the row it addresses: the current row supplies the fields the
request leaves nil, and the unique_identifier is recomputed from the merged
color and size. -/
def variantUpdateRow (row : VariantRow) (req : UpdateProductVariantRequest) :
    Except String VariantRow :=
  let color := req.color.getD row.color
  let shoeSize := req.shoeSize.getD row.shoeSize
  if sqlHasSetClause (variantUpdateQuery req) then
    .ok
      { row with
        color := color
        shoeSize := shoeSize
        uniqueIdentifier := mkUniqueIdentifier row.productId color shoeSize }
  else .error "failed to update product variant: syntax error"

/-- Tier yielding a structured-block variant, for the C4 witness page. -/
def tierStructured : String → List Variant :=
  fun _ => [{ color := "White/Black", shoeSize := "9", uniqueIdentifier := "IM6674-101" }]

/-- Tier yielding a conflicting visible-text variant, for the C4 witness page. -/
def tierTextScan : String → List Variant :=
  fun _ => [{ color := "Red", shoeSize := "9", uniqueIdentifier := "SCAN-1" }]

/-- An unparsable price candidate, for the C6 witness. -/
def priceCandNA : PriceCandidate := { raw := "N/A", inStock := true }

/-- A brand parser whose tiers all come up empty, for the C1 witness. -/
def bpBare : BrandParser :=
  { variantTierA := fun _ => []
    variantTierB := fun _ => []
    priceTierA := fun _ => []
    priceTierB := fun _ => []
    imageTierA := fun _ => []
    imageTierB := fun _ => [] }

/-- The row GetLatestPrice picks from a nonempty match list: the fold keeping
the row with the greatest captured_at. -/
def latestOf (h : PriceRow) (t : List PriceRow) : PriceRow :=
  t.foldl (fun best r => if best.capturedAt < r.capturedAt then r else best) h

/-- A seeded product_variants table for the C3 theorem. -/
def c3Variants : List VariantRow :=
  [{ id := 1, productId := 1, color := "Black", shoeSize := "10",
     uniqueIdentifier := "1_Black_10" }]

/-- A seeded countries table for the C3 theorem. -/
def c3Countries : List CountryRow :=
  [{ id := 1, countryCode := "US", currency := "USD" }]

/-- The row stored by the C3 negative-price create. -/
def c3NegRow : PriceRow :=
  { id := 1, variantId := 1, countryId := 1, price := -1, isInStock := true,
    capturedAt := 0 }

/-- A matching price_history row for the C8 witness. -/
def c8r1 : PriceRow :=
  { id := 1, variantId := 1, countryId := 1, price := 5000, isInStock := true,
    capturedAt := 10 }

/-- The later matching price_history row for the C8 witness. -/
def c8r2 : PriceRow :=
  { id := 2, variantId := 1, countryId := 1, price := 5200, isInStock := true,
    capturedAt := 20 }

/-- A price_history table for the C8 witness: two rows match variant 1 and
country 1, one row does not. -/
def c8rows : List PriceRow :=
  [c8r1, { id := 3, variantId := 1, countryId := 2, price := 9000,
           isInStock := true, capturedAt := 30 }, c8r2]

/-- A stored product row for the C9 witness. -/
def c9row : ProductRow :=
  { id := 1, brandName := "Nike", shoeName := "Air Force 1",
    baseURL := "https://example.com/nike/af1", createdAt := 0 }

/-- A partial update request touching only brand_name, for the C9 witness. -/
def c9req : UpdateProductRequest :=
  { brandName := some "New Balance", shoeName := none, baseURL := none }

/-- The row after the C9 witness update. -/
def c9out : ProductRow :=
  { id := 1, brandName := "New Balance", shoeName := "Air Force 1",
    baseURL := "https://example.com/nike/af1", createdAt := 0 }

/-! ## Helper lemmas -/

theorem colon_mem_of_hasSub (l : List Char) (h : listHasSub l [':', '/', '/'] = true) : ':' ∈ l := by
  induction l with
  | nil => simp [listHasSub, List.isEmpty] at h
  | cons a rest ih =>
    simp only [listHasSub, Bool.or_eq_true] at h
    rcases h with h | h
    · simp only [listStartsWith, Bool.and_eq_true, beq_iff_eq] at h
      exact h.1 ▸ List.mem_cons_self a rest
    · exact List.mem_cons_of_mem a (ih h)

theorem hasScheme_not_whitespace (s : String) (h : hasScheme s = true) : allWhitespace s = false := by
  rcases Bool.eq_false_or_eq_true (allWhitespace s) with ht | hf
  · exfalso
    simp only [allWhitespace] at ht
    have hmem := colon_mem_of_hasSub s.data h
    have hall := List.all_eq_true.mp ht ':' hmem
    simp at hall
  · exact hf

theorem slashes_not_whitespace (s : String) (h : listStartsWith s.data ['/', '/'] = true) : allWhitespace s = false := by
  rcases Bool.eq_false_or_eq_true (allWhitespace s) with ht | hf
  · exfalso
    simp only [allWhitespace] at ht
    cases hd : s.data with
    | nil => rw [hd] at h; simp [listStartsWith] at h
    | cons a rest =>
      rw [hd] at h
      simp only [listStartsWith, Bool.and_eq_true, beq_iff_eq] at h
      have hmem : a ∈ s.data := by rw [hd]; exact List.mem_cons_self a rest
      have hall := List.all_eq_true.mp ht a hmem
      rw [h.1] at hall
      simp at hall
  · exact hf

theorem filter_any_digit (l : List Char) :
    (l.filter (fun c => c.isDigit || c == '.')).any Char.isDigit = l.any Char.isDigit := by
  induction l with
  | nil => rfl
  | cons c t ih =>
    by_cases hd : c.isDigit
    · have hp : (c.isDigit || c == '.') = true := by simp [hd]
      simp [List.filter_cons, hp, List.any_cons, hd, ih]
    · by_cases hdot : c = '.'
      · have hp : (c.isDigit || c == '.') = true := by simp [hdot]
        simp [List.filter_cons, hp, List.any_cons, hd, ih, hdot]
      · have hp : (c.isDigit || c == '.') = false := by simp [hd, hdot]
        simp [List.filter_cons, hp, List.any_cons, hd, ih, hdot]

theorem underscore_split_inj (c1 : List Char) : ∀ (c2 s1 s2 : List Char),
    (∀ ch ∈ c1, ch ≠ '_') → (∀ ch ∈ c2, ch ≠ '_') →
    c1 ++ '_' :: s1 = c2 ++ '_' :: s2 → c1 = c2 ∧ s1 = s2 := by
  induction c1 with
  | nil =>
    intro c2 s1 s2 _ h2 heq
    cases c2 with
    | nil => simpa using heq
    | cons b u =>
      exfalso
      simp only [List.nil_append, List.cons_append, List.cons.injEq] at heq
      exact h2 b (List.mem_cons_self b u) heq.1.symm
  | cons a t ih =>
    intro c2 s1 s2 h1 h2 heq
    cases c2 with
    | nil =>
      exfalso
      simp only [List.cons_append, List.nil_append, List.cons.injEq] at heq
      exact h1 a (List.mem_cons_self a t) heq.1
    | cons b u =>
      simp only [List.cons_append, List.cons.injEq] at heq
      have ht := ih u s1 s2 (fun ch hch => h1 ch (List.mem_cons_of_mem a hch))
        (fun ch hch => h2 ch (List.mem_cons_of_mem b hch)) heq.2
      exact ⟨by rw [heq.1, ht.1], ht.2⟩

theorem mkUniqueIdentifier_data (pid : Int) (c s : String) :
    (mkUniqueIdentifier pid c s).data =
      (toString pid).data ++ '_' :: (c.data ++ '_' :: s.data) := by
  have hu : ("_" : String).data = ['_'] := rfl
  simp [mkUniqueIdentifier, String.data_append, hu, List.append_assoc]

theorem mkUniqueIdentifier_inj (pid : Int) (c1 s1 c2 s2 : String)
    (h1 : ∀ ch ∈ c1.data, ch ≠ '_') (h2 : ∀ ch ∈ c2.data, ch ≠ '_')
    (heq : mkUniqueIdentifier pid c1 s1 = mkUniqueIdentifier pid c2 s2) :
    c1 = c2 ∧ s1 = s2 := by
  have hd : (mkUniqueIdentifier pid c1 s1).data = (mkUniqueIdentifier pid c2 s2).data := by
    rw [heq]
  rw [mkUniqueIdentifier_data, mkUniqueIdentifier_data] at hd
  have hc := List.append_cancel_left hd
  have ht := List.cons.inj hc
  have hsplit := underscore_split_inj c1.data c2.data s1.data s2.data h1 h2 ht.2
  exact ⟨String.ext hsplit.1, String.ext hsplit.2⟩

theorem latestOf_mem (h : PriceRow) (t : List PriceRow) :
    t.foldl (fun best r => if best.capturedAt < r.capturedAt then r else best) h ∈ h :: t := by
  induction t generalizing h with
  | nil => simp [List.foldl_nil]
  | cons a t ih =>
    simp only [List.foldl_cons]
    have hmem := ih (if h.capturedAt < a.capturedAt then a else h)
    by_cases hlt : h.capturedAt < a.capturedAt
    · rw [if_pos hlt] at hmem
      rcases List.mem_cons.mp hmem with he | ht
      · rw [if_pos hlt, he]
        exact List.mem_cons_of_mem h (List.mem_cons_self a t)
      · rw [if_pos hlt]
        exact List.mem_cons_of_mem h (List.mem_cons_of_mem a ht)
    · rw [if_neg hlt] at hmem
      rcases List.mem_cons.mp hmem with he | ht
      · rw [if_neg hlt, he]
        exact List.mem_cons_self h (a :: t)
      · rw [if_neg hlt]
        exact List.mem_cons_of_mem h (List.mem_cons_of_mem a ht)

theorem latestOf_max (h : PriceRow) (t : List PriceRow) :
    ∀ r ∈ h :: t, r.capturedAt ≤
      (t.foldl (fun best r => if best.capturedAt < r.capturedAt then r else best) h).capturedAt := by
  induction t generalizing h with
  | nil =>
    intro r hr
    rcases List.mem_cons.mp hr with he | ht
    · exact he ▸ Nat.le_refl _
    · simp at ht
  | cons a t ih =>
    intro r hr
    simp only [List.foldl_cons]
    have hstep : ∀ x, x = h ∨ x = a →
        x.capturedAt ≤ (if h.capturedAt < a.capturedAt then a else h).capturedAt := by
      intro x hx
      by_cases hlt : h.capturedAt < a.capturedAt
      · rw [if_pos hlt]
        rcases hx with he | he
        · exact he ▸ Nat.le_of_lt hlt
        · exact he ▸ Nat.le_refl _
      · rw [if_neg hlt]
        rcases hx with he | he
        · exact he ▸ Nat.le_refl _
        · exact he ▸ Nat.le_of_not_lt hlt
    have hhead := ih (if h.capturedAt < a.capturedAt then a else h)
      (if h.capturedAt < a.capturedAt then a else h)
      (List.mem_cons_self _ t)
    rcases List.mem_cons.mp hr with he | hr2
    · exact Nat.le_trans (hstep r (Or.inl he)) hhead
    · rcases List.mem_cons.mp hr2 with he | ht
      · exact Nat.le_trans (hstep r (Or.inr he)) hhead
      · exact ih (if h.capturedAt < a.capturedAt then a else h) r
          (List.mem_cons_of_mem _ ht)

/-! ## Claim theorems: extraction engine -/

/-- C4: Two-tier precedence — for every field extractor and every input page
the fallback tier is consulted only when the preferred structured tier yields
zero candidates: when tier (a) yields at least one candidate the extractor's
output is exactly tier (a)'s candidate list, and tier (b)'s list is the
output only when tier (a) is empty. -/
theorem twoTier_precedence (α : Type) (tierA tierB : String → List α) (content : String) :
    (tierA content ≠ [] → twoTier tierA tierB content = tierA content) ∧
    (tierA content = [] → twoTier tierA tierB content = tierB content) := by
  constructor
  · intro h
    cases hA : tierA content with
    | nil => exact absurd hA h
    | cons c cs => simp [twoTier, hA]
  · intro h
    simp [twoTier, h]

/-- Witness for C4: on a page where the structured tier and the text-scan
tier yield conflicting candidates, the structured value wins. -/
theorem twoTier_precedence_witness :
    twoTier tierStructured tierTextScan "page" =
      [{ color := "White/Black", shoeSize := "9", uniqueIdentifier := "IM6674-101" }] ∧
    tierTextScan "page" ≠
      [{ color := "White/Black", shoeSize := "9", uniqueIdentifier := "IM6674-101" }] := by
  refine ⟨?_, by decide⟩
  exact (twoTier_precedence Variant tierStructured tierTextScan "page").1 (by decide)

/-- C7: error propagation — extract returns a hard failure exactly on
unusable (empty) raw content, and that failure is UnusableContent; on every
other input the extraction succeeds with a ScrapeResult, the field-local
failures (MalformedURL, UnparsablePrice) having been absorbed inside the
pipeline. -/
theorem extract_error_policy (bp : BrandParser) (content baseOrigin url : String) :
    (∀ e, extract bp content baseOrigin url = .error e ↔
      (unusableContent content = true ∧ e = .unusableContent)) ∧
    extractionSucceeds (extract bp content baseOrigin url) = !unusableContent content := by
  by_cases h : unusableContent content = true
  · constructor
    · intro e
      simp [extract, h, eq_comm]
    · simp [extract, h, extractionSucceeds]
  · have hf : unusableContent content = false := by simpa using h
    constructor
    · intro e
      simp [extract, hf]
    · simp [extract, hf, extractionSucceeds]

/-- C5: absolutize returns a scheme-bearing candidate unchanged, prefixes the
base origin's scheme to a protocol-relative candidate, and resolves a
path-relative candidate against the base origin; in particular the three
pinned examples of the spec hold. -/
theorem absolutize_spec :
    (∀ cand baseOrigin : String, hasScheme cand = true →
      absolutize cand baseOrigin = .ok cand) ∧
    (∀ cand baseOrigin : String, hasScheme cand = false →
      listStartsWith cand.data ['/', '/'] = true →
      absolutize cand baseOrigin = .ok (schemeOf baseOrigin ++ ":" ++ cand)) ∧
    (∀ cand baseOrigin : String, allWhitespace cand = false →
      hasScheme cand = false → listStartsWith cand.data ['/', '/'] = false →
      absolutize cand baseOrigin = .ok (resolveAgainst baseOrigin cand)) ∧
    absolutize "/a/b.jpg" "https://example.com" = .ok "https://example.com/a/b.jpg" ∧
    absolutize "//cdn.example.com/a.jpg" "https://example.com" = .ok "https://cdn.example.com/a.jpg" ∧
    absolutize "https://x.com/y.jpg" "https://example.com" = .ok "https://x.com/y.jpg" := by
  refine ⟨?_, ?_, ?_, by decide, by decide, by decide⟩
  · intro cand baseOrigin h
    have hw := hasScheme_not_whitespace cand h
    simp [absolutize, hw, h]
  · intro cand baseOrigin hs hsl
    have hw := slashes_not_whitespace cand hsl
    simp [absolutize, hw, hs, hsl]
  · intro cand baseOrigin hw hs hsl
    simp [absolutize, hw, hs, hsl]

/-- Witness for C5 at a further concrete input with a scheme. -/
theorem absolutize_spec_witness :
    absolutize "http://cdn.nike.com/img1.png" "https://www.nike.com" =
      .ok "http://cdn.nike.com/img1.png" :=
  absolutize_spec.1 "http://cdn.nike.com/img1.png" "https://www.nike.com" (by decide)

/-- C6: parse_price strips every non-digit, non-decimal-separator character
and parses the remainder as a decimal, so the pinned example yields 145;
it fails with UnparsablePrice exactly when the input contains no digit; and
a failing candidate contributes no price observation while processing of the
remaining candidates continues. -/
theorem parsePrice_spec :
    parsePrice "$145.00" = .ok 145 ∧
    (∀ raw : String, parsePrice raw = .error .unparsablePrice ↔
      raw.data.all (fun c => !c.isDigit) = true) ∧
    (∀ (c : PriceCandidate) (cs : List PriceCandidate),
      parsePrice c.raw = .error .unparsablePrice →
      pricesFrom (c :: cs) = pricesFrom cs) := by
  refine ⟨?_, ?_, ?_⟩
  · have h : parsePrice "$145.00" = .ok ((145 : Rat) + (0 : Rat) / 10 ^ 2) := rfl
    rw [h]
    norm_num
  · intro raw
    simp only [parsePrice, filter_any_digit]
    by_cases ha : raw.data.any Char.isDigit = true
    · rw [if_pos ha]
      constructor
      · intro he
        exact Except.noConfusion he
      · intro hall
        exfalso
        rcases List.any_eq_true.mp ha with ⟨x, hxm, hxd⟩
        have hx := List.all_eq_true.mp hall x hxm
        rw [hxd] at hx
        simp at hx
    · have hfa : raw.data.any Char.isDigit = false := by simpa using ha
      rw [if_neg ha]
      constructor
      · intro _
        exact List.all_eq_true.mpr fun x hx => by
          have hnd := List.any_eq_false.mp hfa x hx
          simpa using hnd
      · intro _
        rfl
  · intro c cs h
    simp [pricesFrom, List.filterMap_cons, h]

/-- Witness for C6: the unparsable candidate is absorbed — it contributes no
observation and the remaining (empty) candidate list is processed as usual. -/
theorem parsePrice_spec_witness :
    pricesFrom [priceCandNA] = pricesFrom [] :=
  parsePrice_spec.2.2 priceCandNA []
    ((parsePrice_spec.2.1 priceCandNA.raw).mpr (by decide))

/-- The dedup-then-fallback variant slice is never empty. -/
theorem extractVariantList_ne_nil (bp : BrandParser) (content url : String) :
    (extractVariantList bp content url).1 ≠ [] := by
  unfold extractVariantList
  cases hm : dedupVariants (twoTier bp.variantTierA bp.variantTierB content) with
  | nil => simp
  | cons v vs => simp

/-- C1: fallback invariant — whenever neither tier of the variant extractor
yields a candidate (on usable content), the extraction succeeds and the
result carries exactly one synthetic Variant with placeholder color and size
and the input URL as identifier, with the degradation flag set; and for every
successful extraction the variants list is never empty. -/
theorem extract_variants_fallback :
    (∀ (bp : BrandParser) (content baseOrigin url : String),
      unusableContent content = false →
      bp.variantTierA content = [] →
      bp.variantTierB content = [] →
      extractionSucceeds (extract bp content baseOrigin url) = true ∧
      extractedVariants (extract bp content baseOrigin url) =
        [{ color := "unknown", shoeSize := "unknown", uniqueIdentifier := url }] ∧
      extractedDegraded (extract bp content baseOrigin url) = true) ∧
    (∀ (bp : BrandParser) (content baseOrigin url : String) (r : ScrapeResult),
      extract bp content baseOrigin url = .ok r → r.variants ≠ []) := by
  constructor
  · intro bp content baseOrigin url hu hA hB
    refine ⟨?_, ?_, ?_⟩ <;>
      simp [extract, hu, extractVariantList, twoTier, hA, hB, dedupVariants,
        dedupVariantsAux, extractionSucceeds, extractedVariants,
        extractedDegraded, fallbackVariant]
  · intro bp content baseOrigin url r hr
    by_cases hu : unusableContent content = true
    · simp [extract, hu] at hr
    · have hf : unusableContent content = false := by simpa using hu
      simp only [extract, hf, Bool.false_eq_true, if_false] at hr
      have h := Except.ok.inj hr
      rw [← h]
      exact extractVariantList_ne_nil bp content url

/-- Witness for C1 on a concrete page where neither variant tier yields a
candidate. -/
theorem extract_variants_fallback_witness :
    extractionSucceeds
      (extract bpBare "<html></html>" "https://www.nike.com"
        "https://www.nike.com/t/shoe/IM6674-101") = true ∧
    extractedVariants
      (extract bpBare "<html></html>" "https://www.nike.com"
        "https://www.nike.com/t/shoe/IM6674-101") =
      [{ color := "unknown", shoeSize := "unknown",
         uniqueIdentifier := "https://www.nike.com/t/shoe/IM6674-101" }] ∧
    extractedDegraded
      (extract bpBare "<html></html>" "https://www.nike.com"
        "https://www.nike.com/t/shoe/IM6674-101") = true :=
  extract_variants_fallback.1 bpBare "<html></html>" "https://www.nike.com"
    "https://www.nike.com/t/shoe/IM6674-101" (by decide) rfl rfl

/-! ## Claim theorems: Go persistence backend -/

/-- C2 counterexample: two distinct variants of the same product, each
accepted by Create under the UNIQUE(product_id, color, shoe_size)
constraint, can receive the same unique_identifier, because the underscore
concatenation productID, color, shoe_size is not injective when a color
contains an underscore. -/
theorem variantCreate_identifier_collision :
    variantCreate [] 1 { productId := 1, color := "a_b", shoeSize := "c" } =
      .ok { id := 1, productId := 1, color := "a_b", shoeSize := "c",
            uniqueIdentifier := "1_a_b_c" } ∧
    variantCreate
      [{ id := 1, productId := 1, color := "a_b", shoeSize := "c",
         uniqueIdentifier := "1_a_b_c" }] 2
      { productId := 1, color := "a", shoeSize := "b_c" } =
      .ok { id := 2, productId := 1, color := "a", shoeSize := "b_c",
            uniqueIdentifier := "1_a_b_c" } ∧
    ({ id := 1, productId := 1, color := "a_b", shoeSize := "c",
       uniqueIdentifier := "1_a_b_c" } : VariantRow) ≠
      { id := 2, productId := 1, color := "a", shoeSize := "b_c",
        uniqueIdentifier := "1_a_b_c" } ∧
    ({ id := 1, productId := 1, color := "a_b", shoeSize := "c",
       uniqueIdentifier := "1_a_b_c" } : VariantRow).uniqueIdentifier =
      ({ id := 2, productId := 1, color := "a", shoeSize := "b_c",
         uniqueIdentifier := "1_a_b_c" } : VariantRow).uniqueIdentifier := by
  refine ⟨by decide, by decide, by decide, rfl⟩

/-- C2 (amended): for two distinct variants of the same product, each
successfully created by ProductVariantRepository.Create under the
UNIQUE(product_id, color, shoe_size) constraint, the composed
unique_identifier strings are distinct provided neither variant's color
contains an underscore. -/
theorem variantCreate_identifier_distinct
    (db : List VariantRow) (n1 n2 : Int)
    (req1 req2 : CreateProductVariantRequest) (r1 r2 : VariantRow)
    (hpid : req1.productId = req2.productId)
    (hc1 : ∀ ch ∈ req1.color.data, ch ≠ '_')
    (hc2 : ∀ ch ∈ req2.color.data, ch ≠ '_')
    (h1 : variantCreate db n1 req1 = .ok r1)
    (h2 : variantCreate (db ++ [r1]) n2 req2 = .ok r2) :
    r1.uniqueIdentifier ≠ r2.uniqueIdentifier := by
  unfold variantCreate at h1 h2
  by_cases ha1 : (db.any fun v =>
      v.productId == req1.productId && v.color == req1.color &&
      v.shoeSize == req1.shoeSize) = true
  · rw [if_pos ha1] at h1
    exact Except.noConfusion h1
  · rw [if_neg ha1] at h1
    by_cases ha2 : ((db ++ [r1]).any fun v =>
        v.productId == req2.productId && v.color == req2.color &&
        v.shoeSize == req2.shoeSize) = true
    · rw [if_pos ha2] at h2
      exact Except.noConfusion h2
    · rw [if_neg ha2] at h2
      have hfr : (r1.productId == req2.productId && r1.color == req2.color &&
          r1.shoeSize == req2.shoeSize) = false := by
        rcases Bool.eq_false_or_eq_true (r1.productId == req2.productId &&
            r1.color == req2.color && r1.shoeSize == req2.shoeSize) with ht | hf
        · exfalso
          exact ha2 (List.any_eq_true.mpr
            ⟨r1, List.mem_append.mpr (Or.inr (List.mem_singleton.mpr rfl)), ht⟩)
        · exact hf
      have hr1 := Except.ok.inj h1
      have hr2 := Except.ok.inj h2
      subst hr1
      subst hr2
      intro heq
      have heq2 : mkUniqueIdentifier req1.productId req1.color req1.shoeSize =
          mkUniqueIdentifier req2.productId req2.color req2.shoeSize := heq
      rw [hpid] at heq2
      rcases mkUniqueIdentifier_inj req2.productId req1.color req1.shoeSize
        req2.color req2.shoeSize hc1 hc2 heq2 with ⟨hc, hs⟩
      simp [hpid, hc, hs] at hfr

/-- Witness for the amended C2 with underscore-free colors. -/
theorem variantCreate_identifier_distinct_witness :
    ("1_Black_9" : String) ≠ "1_White_9" := by
  have h := variantCreate_identifier_distinct [] 1 2
    { productId := 1, color := "Black", shoeSize := "9" }
    { productId := 1, color := "White", shoeSize := "9" }
    { id := 1, productId := 1, color := "Black", shoeSize := "9",
      uniqueIdentifier := "1_Black_9" }
    { id := 2, productId := 1, color := "White", shoeSize := "9",
      uniqueIdentifier := "1_White_9" }
    rfl (by decide) (by decide) (by decide) (by decide)
  exact h

/-- C3: the claimed non-negativity invariant is not enforced by the code —
PriceHistoryRepository.Create accepts a request with a negative price (the
schema places no CHECK on price and no validator runs the min=0 struct tag)
and stores the negative value, and Update likewise accepts and stores a
negative price. -/
theorem priceHistory_negative_price_accepted :
    priceHistoryCreate c3Variants c3Countries 1 0
      { variantId := 1, countryId := 1, price := -1, isInStock := true } =
      .ok c3NegRow ∧
    c3NegRow.price < 0 ∧
    priceHistoryUpdateRow
      { id := 1, variantId := 1, countryId := 1, price := 120,
        isInStock := true, capturedAt := 0 }
      { price := some (-1), isInStock := none } =
      .ok { id := 1, variantId := 1, countryId := 1, price := -1,
            isInStock := true, capturedAt := 0 } := by
  refine ⟨by decide, ?_, by decide⟩
  show (-1 : Rat) < 0
  norm_num

/-- C8: GetLatestPrice returns, among the price_history rows matching the
given variant and country, one whose captured_at is maximal; when no row
matches it returns the error "price history not found". -/
theorem getLatestPrice_spec (rows : List PriceRow) (vid cid : Int) :
    (rows.filter (fun r => r.variantId == vid && r.countryId == cid) = [] →
      getLatestPrice rows vid cid = .error "price history not found") ∧
    (∀ (h0 : PriceRow) (t0 : List PriceRow),
      rows.filter (fun r => r.variantId == vid && r.countryId == cid) = h0 :: t0 →
      getLatestPrice rows vid cid = .ok (latestOf h0 t0) ∧
      latestOf h0 t0 ∈ rows ∧
      (latestOf h0 t0).variantId = vid ∧
      (latestOf h0 t0).countryId = cid ∧
      ∀ r ∈ rows, r.variantId = vid → r.countryId = cid →
        r.capturedAt ≤ (latestOf h0 t0).capturedAt) := by
  constructor
  · intro h
    simp [getLatestPrice, h]
  · intro h0 t0 hF
    have hres : getLatestPrice rows vid cid = .ok (latestOf h0 t0) := by
      simp [getLatestPrice, hF, latestOf]
    have hmem0 : latestOf h0 t0 ∈ h0 :: t0 := latestOf_mem h0 t0
    have hmemF : latestOf h0 t0 ∈
        rows.filter (fun r => r.variantId == vid && r.countryId == cid) := by
      rw [hF]
      exact hmem0
    have hmemRows := (List.mem_filter.mp hmemF).1
    have hprop := (List.mem_filter.mp hmemF).2
    simp only [Bool.and_eq_true, beq_iff_eq] at hprop
    refine ⟨hres, hmemRows, hprop.1, hprop.2, ?_⟩
    intro r hr hv hc
    have hrF : r ∈
        rows.filter (fun x => x.variantId == vid && x.countryId == cid) :=
      List.mem_filter.mpr ⟨hr, by simp [hv, hc]⟩
    rw [hF] at hrF
    exact latestOf_max h0 t0 r hrF

/-- Witness for C8 on a concrete table where two rows match and the one with
the greater captured_at is returned. -/
theorem getLatestPrice_spec_witness :
    getLatestPrice c8rows 1 1 = .ok (latestOf c8r1 [c8r2]) ∧
    latestOf c8r1 [c8r2] ∈ c8rows := by
  have h := (getLatestPrice_spec c8rows 1 1).2 c8r1 [c8r2] (by decide)
  exact ⟨h.1, h.2.1⟩

/-- C9: ProductRepository.Update is a partial update with a frame — on a
successful update every field whose request pointer is nil keeps its prior
stored value, id and created_at are never changed, and exactly the fields
with non-nil pointers take the new values. -/
theorem productUpdate_frame (row : ProductRow) (req : UpdateProductRequest)
    (out : ProductRow) (h : productUpdateRow row req = .ok out) :
    out.id = row.id ∧ out.createdAt = row.createdAt ∧
    (req.brandName = none → out.brandName = row.brandName) ∧
    (∀ v, req.brandName = some v → out.brandName = v) ∧
    (req.shoeName = none → out.shoeName = row.shoeName) ∧
    (∀ v, req.shoeName = some v → out.shoeName = v) ∧
    (req.baseURL = none → out.baseURL = row.baseURL) ∧
    (∀ v, req.baseURL = some v → out.baseURL = v) := by
  unfold productUpdateRow at h
  by_cases hq : sqlHasSetClause (productUpdateQuery req) = true
  · rw [if_pos hq] at h
    have he := Except.ok.inj h
    subst he
    refine ⟨rfl, rfl, ?_, ?_, ?_, ?_, ?_, ?_⟩
    · intro hv
      simp [hv]
    · intro v hv
      simp [hv]
    · intro hv
      simp [hv]
    · intro v hv
      simp [hv]
    · intro hv
      simp [hv]
    · intro v hv
      simp [hv]
  · rw [if_neg hq] at h
    exact Except.noConfusion h

/-- Witness for C9: updating only brand_name leaves shoe_name, base_url, id
and created_at untouched. -/
theorem productUpdate_frame_witness :
    c9out.id = c9row.id ∧ c9out.createdAt = c9row.createdAt ∧
    c9out.shoeName = c9row.shoeName ∧ c9out.baseURL = c9row.baseURL ∧
    c9out.brandName = "New Balance" := by
  have h := productUpdate_frame c9row c9req c9out (by decide)
  exact ⟨h.1, h.2.1, h.2.2.2.2.1 rfl, h.2.2.2.2.2.2.1 rfl,
    h.2.2.2.1 "New Balance" rfl⟩

/-- C10: an all-nil update request makes the product, country and
price-history Update builders emit a malformed statement — the unconditional
two-byte trim truncates the SET keyword — so the database rejects it, Update
returns an error and the stored row is unchanged; ProductVariantRepository's
builder always appends the recomputed unique_identifier clause and its
all-nil update succeeds. -/
theorem allNil_update_rejected (p : ProductRow) (c : CountryRow)
    (ph : PriceRow) (v : VariantRow) :
    productUpdateQuery { brandName := none, shoeName := none, baseURL := none } =
      "UPDATE products SE WHERE id = $1 RETURNING id, brand_name, shoe_name, base_url, created_at" ∧
    productUpdateRow p { brandName := none, shoeName := none, baseURL := none } =
      .error "failed to update product: syntax error" ∧
    productUpdateApply p { brandName := none, shoeName := none, baseURL := none } = p ∧
    countryUpdateQuery { countryCode := none, currency := none } =
      "UPDATE countries SE WHERE id = $1 RETURNING id, country_code, currency" ∧
    countryUpdateRow c { countryCode := none, currency := none } =
      .error "failed to update country: syntax error" ∧
    countryUpdateApply c { countryCode := none, currency := none } = c ∧
    priceHistoryUpdateQuery { price := none, isInStock := none } =
      "UPDATE price_history SE WHERE id = $1 RETURNING id, variant_id, country_id, price, is_in_stock, captured_at" ∧
    priceHistoryUpdateRow ph { price := none, isInStock := none } =
      .error "failed to update price history: syntax error" ∧
    priceHistoryUpdateApply ph { price := none, isInStock := none } = ph ∧
    variantUpdateRow v { color := none, shoeSize := none } =
      .ok { v with uniqueIdentifier :=
        mkUniqueIdentifier v.productId v.color v.shoeSize } := by
  refine ⟨by decide, ?_, ?_, by decide, ?_, ?_, by decide, ?_, ?_, ?_⟩
  · rw [productUpdateRow, if_neg (by decide)]
  · rw [productUpdateApply, productUpdateRow, if_neg (by decide)]
  · rw [countryUpdateRow, if_neg (by decide)]
  · rw [countryUpdateApply, countryUpdateRow, if_neg (by decide)]
  · rw [priceHistoryUpdateRow, if_neg (by decide)]
  · rw [priceHistoryUpdateApply, priceHistoryUpdateRow, if_neg (by decide)]
  · rw [variantUpdateRow, if_pos (by decide)]
    rfl

/-- Witness for C7 on concrete inputs: empty content is the hard failure,
and the policy theorem instantiates there. -/
theorem extract_error_policy_witness :
    extractionSucceeds (extract bpBare "" "https://example.com" "https://example.com/p") = false := by
  have h := (extract_error_policy bpBare "" "https://example.com" "https://example.com/p").2
  rw [h]
  decide

/-- Witness for C10 on a concrete product row: the all-nil update leaves the
stored row unchanged. -/
theorem allNil_update_rejected_witness :
    productUpdateApply
      { id := 1, brandName := "Nike", shoeName := "Dunk Low",
        baseURL := "https://example.com/nike/dunk", createdAt := 0 }
      { brandName := none, shoeName := none, baseURL := none } =
      { id := 1, brandName := "Nike", shoeName := "Dunk Low",
        baseURL := "https://example.com/nike/dunk", createdAt := 0 } :=
  (allNil_update_rejected
    { id := 1, brandName := "Nike", shoeName := "Dunk Low",
      baseURL := "https://example.com/nike/dunk", createdAt := 0 }
    { id := 1, countryCode := "US", currency := "USD" }
    { id := 1, variantId := 1, countryId := 1, price := 120, isInStock := true,
      capturedAt := 0 }
    { id := 1, productId := 1, color := "Black", shoeSize := "9",
      uniqueIdentifier := "1_Black_9" }).2.2.1
